import Mathlib

/-!
Verification of `Sources/libpylamsupport/LambdaBuilder.c` (PythonLambda):
a late-binding bridge from a host process to an embedded Python runtime.
The bridge's own code (symbol resolution, marshaling wrappers, execution
bridge) is translated directly from the C source.  The foreign runtime
behind the resolved function pointers is out of scope of the source and is
modelled from the spec's interface description; every such definition says
so in its doc comment.
-/

set_option autoImplicit false

/-- An opaque reference into the foreign runtime's managed heap, together
with the concrete object shapes the marshaling layer can produce or
inspect.  `double` carries the 64-bit pattern of a C `double`; the bridge
never performs arithmetic on it, it only passes it through.  `moduleRef`
and `dictRef` are the runtime's module and dictionary objects, identified
by a heap id.  `ref` is an arbitrary foreign object. -/
inductive PyObject where
  | str (s : String)
  | long (n : Int)
  | double (bits : UInt64)
  | tuple (items : List PyObject)
  | ref (id : Nat)
  | moduleRef (id : Nat)
  | dictRef (id : Nat)

/-- Observable invocations of the resolved entry points, recorded as a
trace by the execution-bridge functions. -/
inductive Event where
  | getItemString (key : String)
  | setItemString (key : String)
  | runString
  | printErrors
  | clearErrors
  | addModule (name : String)
  | moduleGetDict
  deriving DecidableEq

/-! ## Symbol Table (LambdaBuilder.c lines 12-75)

A library handle is abstracted by its symbol-resolution behaviour:
`dlsym : String → Option Nat`, `none` when the name is absent, `some a`
for the resolved address `a`.  The C file's function-pointer globals
become the fields of `PyLib`; `initialisePythonLibrary` overwrites every
slot from the handle, as the POSIX branch of the C source does. -/

/-- The process-wide state of LambdaBuilder.c: the stored library handle
and one function-pointer slot per entry point (the POSIX branch resolves
all of them). -/
structure PyLib where
  pythonLibraryHandle : Option (String → Option Nat)
  pyarg_parsetuple : Option Nat
  py_buildvalue : Option Nat
  pyunicode_asutf8 : Option Nat
  pyunicode_fromstring : Option Nat
  py_boolfromlong : Option Nat
  py_createPyCFunction : Option Nat
  py_runString : Option Nat
  py_errorprint : Option Nat
  py_error_clear : Option Nat
  py_getitemstring : Option Nat
  py_setitemstring : Option Nat
  py_evalgetbuiltins : Option Nat
  py_getglobals : Option Nat
  py_import_addmodule : Option Nat
  py_import_getmodule : Option Nat
  py_module_getdict : Option Nat
  py_object_getattrstring : Option Nat
  py_object_setattrstring : Option Nat
  py_run_interactiveone : Option Nat
  py_compile_string : Option Nat
  py_err_occurred : Option Nat
  py_execute : Option Nat

/-- `initialisePythonLibrary` (lines 37-75, POSIX branch): stores the
handle and resolves every declared entry-point name through it, slot by
slot.  The previous state is entirely overwritten. -/
def initialisePythonLibrary (dlsym : String → Option Nat) (_s : PyLib) : PyLib :=
  { pythonLibraryHandle := some dlsym
    pyarg_parsetuple := dlsym "PyArg_ParseTuple"
    py_buildvalue := dlsym "Py_BuildValue"
    pyunicode_asutf8 := dlsym "PyUnicode_AsUTF8"
    pyunicode_fromstring := dlsym "PyUnicode_FromString"
    py_boolfromlong := dlsym "PyBool_FromLong"
    py_createPyCFunction := dlsym "PyCFunction_NewEx"
    py_runString := dlsym "PyRun_String"
    py_errorprint := dlsym "PyErr_Print"
    py_error_clear := dlsym "PyErr_Clear"
    py_getitemstring := dlsym "PyDict_GetItemString"
    py_setitemstring := dlsym "PyDict_SetItemString"
    py_evalgetbuiltins := dlsym "PyEval_GetBuiltins"
    py_getglobals := dlsym "PyEval_GetGlobals"
    py_import_addmodule := dlsym "PyImport_AddModule"
    py_import_getmodule := dlsym "PyImport_GetModule"
    py_module_getdict := dlsym "PyModule_GetDict"
    py_object_getattrstring := dlsym "PyObject_GetAttrString"
    py_object_setattrstring := dlsym "PyObject_SetAttrString"
    py_run_interactiveone := dlsym "PyRun_InteractiveOne"
    py_compile_string := dlsym "Py_CompileString"
    py_err_occurred := dlsym "PyErr_Occurred"
    py_execute := dlsym "PyRun_SimpleString" }

/-- The function-pointer slots of a `PyLib` state, each paired with the
entry-point name it was resolved from. -/
def slots (st : PyLib) : List (String × Option Nat) :=
  [ ("PyArg_ParseTuple", st.pyarg_parsetuple),
    ("Py_BuildValue", st.py_buildvalue),
    ("PyUnicode_AsUTF8", st.pyunicode_asutf8),
    ("PyUnicode_FromString", st.pyunicode_fromstring),
    ("PyBool_FromLong", st.py_boolfromlong),
    ("PyCFunction_NewEx", st.py_createPyCFunction),
    ("PyRun_String", st.py_runString),
    ("PyErr_Print", st.py_errorprint),
    ("PyErr_Clear", st.py_error_clear),
    ("PyDict_GetItemString", st.py_getitemstring),
    ("PyDict_SetItemString", st.py_setitemstring),
    ("PyEval_GetBuiltins", st.py_evalgetbuiltins),
    ("PyEval_GetGlobals", st.py_getglobals),
    ("PyImport_AddModule", st.py_import_addmodule),
    ("PyImport_GetModule", st.py_import_getmodule),
    ("PyModule_GetDict", st.py_module_getdict),
    ("PyObject_GetAttrString", st.py_object_getattrstring),
    ("PyObject_SetAttrString", st.py_object_setattrstring),
    ("PyRun_InteractiveOne", st.py_run_interactiveone),
    ("Py_CompileString", st.py_compile_string),
    ("PyErr_Occurred", st.py_err_occurred),
    ("PyRun_SimpleString", st.py_execute) ]

/-- The entry-point names `initialisePythonLibrary` resolves. -/
def pythonSymbolNames : List String :=
  [ "PyArg_ParseTuple", "Py_BuildValue", "PyUnicode_AsUTF8",
    "PyUnicode_FromString", "PyBool_FromLong", "PyCFunction_NewEx",
    "PyRun_String", "PyErr_Print", "PyErr_Clear", "PyDict_GetItemString",
    "PyDict_SetItemString", "PyEval_GetBuiltins", "PyEval_GetGlobals",
    "PyImport_AddModule", "PyImport_GetModule", "PyModule_GetDict",
    "PyObject_GetAttrString", "PyObject_SetAttrString",
    "PyRun_InteractiveOne", "Py_CompileString", "PyErr_Occurred",
    "PyRun_SimpleString" ]

/-- A `PyLib` state with nothing resolved, for use as an arbitrary
pre-initialisation state in concrete instantiations. -/
def pyLib0 : PyLib :=
  ⟨none, none, none, none, none, none, none, none, none, none, none, none,
   none, none, none, none, none, none, none, none, none, none, none⟩

/-! ## Value Wrapper and Argument Parser (lines 77-155)

`Py_BuildValue` and `PyArg_ParseTuple` live inside the foreign runtime;
they are modelled from the spec: the wrapper turns a native value into a
foreign object via a one-character format code, and the parser extracts
native values from an argument bundle whose shape must match the format,
returning a status (nonzero = success, propagated verbatim). -/

/-- Modelled from the spec: `Py_BuildValue` with format code `l` builds a
long-integer object from a native long. -/
def py_buildvalue_l (value : Int) : PyObject := .long value

/-- Modelled from the spec: `Py_BuildValue` with format code `s` builds a
string object from a native string. -/
def py_buildvalue_s (value : String) : PyObject := .str value

/-- Modelled from the spec: `Py_BuildValue` with format code `d` builds a
floating-point object from a native double (carried as its bit pattern;
the bridge performs no arithmetic on it). -/
def py_buildvalue_d (value : UInt64) : PyObject := .double value

/-- Modelled from the spec: `Py_BuildValue` with format code `O` passes an
existing object reference through. -/
def py_buildvalue_O (value : PyObject) : PyObject := value

/-- Modelled from the spec: `PyArg_ParseTuple` with format `s` extracts
the single native string from an argument bundle of string shape; any
other bundle shape is a mismatch, reported by status 0 with the output
slot unset. -/
def pyarg_parsetuple_s : PyObject → Option String × Int
  | .str s => (some s, 1)
  | .tuple [.str s] => (some s, 1)
  | _ => (none, 0)

/-- Modelled from the spec: `PyArg_ParseTuple` with format `l` extracts
the single native long from an argument bundle of long-integer shape. -/
def pyarg_parsetuple_l : PyObject → Option Int × Int
  | .long n => (some n, 1)
  | .tuple [.long n] => (some n, 1)
  | _ => (none, 0)

/-- Modelled from the spec: `PyArg_ParseTuple` with format `d` extracts
the single native double from an argument bundle of floating-point
shape. -/
def pyarg_parsetuple_d : PyObject → Option UInt64 × Int
  | .double b => (some b, 1)
  | .tuple [.double b] => (some b, 1)
  | _ => (none, 0)

/-- Modelled from the spec: `PyArg_ParseTuple` with format `O` extracts
the single object reference from a one-reference argument bundle. -/
def pyarg_parsetuple_O : PyObject → Option PyObject × Int
  | .tuple [a] => (some a, 1)
  | _ => (none, 0)

/-- Modelled from the spec: `PyArg_ParseTuple` with format `OO` extracts
both references, in order, from a two-reference argument bundle; any
other shape is a mismatch, reported by status 0 with the output slots
unset. -/
def pyarg_parsetuple_OO : PyObject → Option (PyObject × PyObject) × Int
  | .tuple [a, b] => (some (a, b), 1)
  | _ => (none, 0)

/-- Modelled from the spec: `PyArg_ParseTuple` with format `OOO` extracts
the three references, in order, from a three-reference argument bundle. -/
def pyarg_parsetuple_OOO : PyObject → Option (PyObject × PyObject × PyObject) × Int
  | .tuple [a, b, c] => (some (a, b, c), 1)
  | _ => (none, 0)

/-- `parseArgsToString` (lines 77-83): parse with format `s`, store the
status into `*error` verbatim and return the extracted value.  A `none`
value models the C output variable left uninitialised on failure. -/
def parseArgsToString (args : PyObject) : Option String × Int :=
  let (value, result) := pyarg_parsetuple_s args
  (value, result)

/-- `parseArgsToDouble` (lines 85-91): parse with format `d`, store the
status into `*error` verbatim and return the extracted value. -/
def parseArgsToDouble (args : PyObject) : Option UInt64 × Int :=
  let (value, result) := pyarg_parsetuple_d args
  (value, result)

/-- `parseArgsToLongInt` (lines 94-100): parse with format `l`, store the
status into `*error` verbatim and return the extracted value. -/
def parseArgsToLongInt (args : PyObject) : Option Int × Int :=
  let (value, result) := pyarg_parsetuple_l args
  (value, result)

/-- `parseArgsToObject` (lines 102-108): parse with format `O`. -/
def parseArgsToObject (args : PyObject) : Option PyObject × Int :=
  let (value, result) := pyarg_parsetuple_O args
  (value, result)

/-- `parseArgsToObjectPair` (lines 110-118): parse with format `OO`;
the first reference is the return value, the second goes out through
`*objectB`, and the parse status goes into `*error` verbatim.  On a
shape mismatch the two C output variables are uninitialised, modelled
as `none`. -/
def parseArgsToObjectPair (args : PyObject) : Option PyObject × Option PyObject × Int :=
  match pyarg_parsetuple_OO args with
  | (some (valueA, valueB), result) => (some valueA, some valueB, result)
  | (none, result) => (none, none, result)

/-- `parseArgsToObjectTriple` (lines 120-130): parse with format `OOO`. -/
def parseArgsToObjectTriple (args : PyObject) :
    Option PyObject × Option PyObject × Option PyObject × Int :=
  match pyarg_parsetuple_OOO args with
  | (some (valueA, valueB, valueC), result) => (some valueA, some valueB, some valueC, result)
  | (none, result) => (none, none, none, result)

/-- `wrapLongInt` (lines 132-135): delegate to `Py_BuildValue` with
format code `l`. -/
def wrapLongInt (value : Int) : PyObject := py_buildvalue_l value

/-- `wrapString` (lines 137-140): delegate to `Py_BuildValue` with
format code `s`. -/
def wrapString (value : String) : PyObject := py_buildvalue_s value

/-- `wrapDouble` (lines 142-145): delegate to `Py_BuildValue` with
format code `d`. -/
def wrapDouble (value : UInt64) : PyObject := py_buildvalue_d value

/-- `wrapObject` (lines 147-150): delegate to `Py_BuildValue` with
format code `O`. -/
def wrapObject (value : PyObject) : PyObject := py_buildvalue_O value

/-! ## Execution Bridge: running source text (lines 214-228, 261-267)

`executePythonCode` calls four resolved entry points.  The foreign
runtime's responses during one call are abstracted into `ExecEnv`
(modelled from the spec: the runtime is a black box reached only through
the function table), and each entry-point invocation is recorded as an
`Event`.  The wrappers `printErrors` (lines 261-263) and `clearErrors`
(lines 265-267) each invoke one dedicated entry point; their invocations
appear in the trace as `Event.printErrors` and `Event.clearErrors`. -/

/-- Modelled from the spec: the foreign runtime's responses to the entry
points `executePythonCode` invokes on the given globals/locals —
the lookup of the `__builtins__` key in the globals dictionary, the
status of injecting the built-in namespace there, and the result of
running the source text (`none` models a NULL result). -/
structure ExecEnv where
  builtinsLookup : Option PyObject
  setBuiltinsStatus : Int
  runStringResult : Option PyObject

/-- The tail of `executePythonCode` after the builtins check: run the
source text, then show or clear the pending error according to the
`showErrors` flag (C truth test: nonzero is true). -/
def runPhase (env : ExecEnv) (showErrors : Int) (pre : List Event) :
    Option PyObject × List Event :=
  (env.runStringResult,
   pre ++ [Event.runString] ++
     (if showErrors ≠ 0 then [Event.printErrors] else [Event.clearErrors]))

/-- `executePythonCode` (lines 214-228): if the globals dictionary has no
`__builtins__` binding, inject the runtime's built-in namespace, and
return NULL at once if that injection fails; otherwise run the source
text and then either print or clear the pending error, by the flag. -/
def executePythonCode (env : ExecEnv) (showErrors : Int) :
    Option PyObject × List Event :=
  match env.builtinsLookup with
  | none =>
      if env.setBuiltinsStatus ≠ 0 then
        (none, [Event.getItemString "__builtins__", Event.setItemString "__builtins__"])
      else
        runPhase env showErrors
          [Event.getItemString "__builtins__", Event.setItemString "__builtins__"]
  | some _ =>
      runPhase env showErrors [Event.getItemString "__builtins__"]

/-! ## String construction fail-fast (lines 198-204) -/

/-- The observable outcome of a bridge call that may terminate the
process: either a fatal diagnostic followed by `exit` with the given
code, or a normal return. -/
inductive CallResult where
  | fatalExit (msg : String) (code : Int)
  | ok (r : PyObject)

/-- `getPyUnicode_FromString` (lines 198-204): if the
`PyUnicode_FromString` slot is nil, print a diagnostic and terminate the
process with exit code 1; otherwise invoke the resolved entry point on
the input.  The slot is abstracted as an optional callable. -/
def getPyUnicode_FromString (slot : Option (String → PyObject)) (u : String) : CallResult :=
  match slot with
  | none => .fatalExit "Lambda functions not available on Python 2!\n" 1
  | some f => .ok (f u)

/-! ## Attribute access (lines 249-255)

`PyObject_SetAttrString` / `PyObject_GetAttrString` live in the foreign
runtime; modelled from the spec: attributes of an opaque foreign object
are a mutable store keyed by object id and attribute name; setting an
attribute on an object that does not support attribute assignment fails
with a nonzero status and changes nothing. -/

/-- Modelled from the spec: the foreign runtime's attribute store,
mapping (object id, attribute name) to the stored value. -/
structure AttrState where
  attrs : List ((Nat × String) × PyObject)

/-- Modelled from the spec: `PyObject_SetAttrString` stores the value
under the attribute name on an opaque object and returns 0; on an object
that does not support attribute assignment it returns -1 and leaves the
store unchanged. -/
def py_object_setattrstring (st : AttrState) (obj : PyObject) (attr : String)
    (value : PyObject) : Int × AttrState :=
  match obj with
  | .ref id => (0, ⟨((id, attr), value) :: st.attrs⟩)
  | _ => (-1, st)

/-- Modelled from the spec: `PyObject_GetAttrString` looks the attribute
up in the store; `none` models a NULL result for a missing attribute or
an object without attributes. -/
def py_object_getattrstring (st : AttrState) (obj : PyObject) (attr : String) :
    Option PyObject :=
  match obj with
  | .ref id => st.attrs.lookup (id, attr)
  | _ => none

/-- `getAttrString` (lines 249-251): pass-through to the resolved
`PyObject_GetAttrString` entry point. -/
def getAttrString (st : AttrState) (obj : PyObject) (attr : String) : Option PyObject :=
  py_object_getattrstring st obj attr

/-- `setAttrString` (lines 253-255): invoke the resolved
`PyObject_SetAttrString` entry point and remap its zero/nonzero status to
a boolean (`== 0`). -/
def setAttrString (st : AttrState) (obj : PyObject) (attr : String) (value : PyObject) :
    Bool × AttrState :=
  let (r, st') := py_object_setattrstring st obj attr value
  (r == 0, st')

/-! ## Global namespace access (lines 234-246, 257-259)

`PyImport_AddModule`, `PyModule_GetDict`, `PyDict_SetItemString` and
`PyDict_GetItemString` live in the foreign runtime; modelled from the
spec: modules are looked up by name (created on first access), each owns
a dictionary object in a heap of dictionaries, and the bridge re-resolves
the top-level module on every access rather than caching it.  Entry-point
invocations are recorded as `Event`s. -/

/-- Modelled from the spec: the foreign runtime's module registry and
dictionary heap.  `modules` maps a module name to the heap id of its
dictionary; `dicts` is the heap of dictionary objects; `nextId` is the
next fresh heap id. -/
structure ModState where
  modules : List (String × Nat)
  dicts : List (Nat × List (String × PyObject))
  nextId : Nat

/-- Modelled from the spec: `PyImport_AddModule` returns the module with
the given name, creating it (with an empty dictionary) if it does not
exist yet. -/
def py_import_addmodule (name : String) (st : ModState) :
    PyObject × ModState × List Event :=
  match st.modules.lookup name with
  | some id => (.moduleRef id, st, [Event.addModule name])
  | none =>
      (.moduleRef st.nextId,
       ⟨(name, st.nextId) :: st.modules, (st.nextId, []) :: st.dicts, st.nextId + 1⟩,
       [Event.addModule name])

/-- Modelled from the spec: `PyModule_GetDict` returns the dictionary
object of a module.  On a non-module argument the C call has no defined
result; the argument is passed through unchanged, and the dictionary
operations below reject it. -/
def py_module_getdict (m : PyObject) : PyObject :=
  match m with
  | .moduleRef id => .dictRef id
  | other => other

/-- Modelled from the spec: `PyDict_SetItemString` binds the key to the
value in the dictionary object, returning status 0; on a non-dictionary
argument it fails with -1 and changes nothing.  A binding is prepended,
and lookups take the first match. -/
def py_setitemstring (d : PyObject) (key : String) (value : PyObject) (st : ModState) :
    Int × ModState :=
  match d with
  | .dictRef id =>
      (0, { st with dicts := (id, (key, value) :: ((st.dicts.lookup id).getD [])) :: st.dicts })
  | _ => (-1, st)

/-- Modelled from the spec: `PyDict_GetItemString` looks the key up in
the dictionary object; `none` models a NULL result. -/
def py_getitemstring (d : PyObject) (key : String) (st : ModState) : Option PyObject :=
  match d with
  | .dictRef id => ((st.dicts.lookup id).getD []).lookup key
  | _ => none

/-- `setItemInGlobalDictionary` (lines 234-239): resolve the `__main__`
module afresh, fetch its dictionary, and bind the key to the value there
(the C code discards the set status). -/
def setItemInGlobalDictionary (key : String) (value : PyObject) (st : ModState) :
    ModState × List Event :=
  let (main_module, st1, tr1) := py_import_addmodule "__main__" st
  let global_dict := py_module_getdict main_module
  let (_, st2) := py_setitemstring global_dict key value st1
  (st2, tr1 ++ [Event.moduleGetDict, Event.setItemString key])

/-- `getItemFromGlobalDictionary` (lines 241-246): resolve the `__main__`
module afresh, fetch its dictionary, and look the key up there. -/
def getItemFromGlobalDictionary (key : String) (st : ModState) :
    Option PyObject × ModState × List Event :=
  let (main_module, st1, tr1) := py_import_addmodule "__main__" st
  let global_dict := py_module_getdict main_module
  (py_getitemstring global_dict key st1, st1,
   tr1 ++ [Event.moduleGetDict, Event.getItemString key])

/-- `getModule` (lines 257-259): ignores its `name` argument and returns
the result of resolving the module named `__main__`. -/
def getModule (_name : String) (st : ModState) : PyObject × ModState × List Event :=
  py_import_addmodule "__main__" st

/-- A concrete symbol-resolution function in which exactly the
`PyRun_String` entry point is absent, for concrete instantiations. -/
def dlsymMissingRunString : String → Option Nat :=
  fun n => if n = "PyRun_String" then none else some 7

/-! ## Theorems -/

/-- C1: in every call to `executePythonCode` in which the source text was
executed, exactly one of the two error operations is invoked, selected by
the `showErrors` flag: the print-errors operation when the flag is
nonzero, the clear-errors operation when it is zero, never both. -/
theorem executePythonCode_exactly_one_error_op (env : ExecEnv) (showErrors : Int)
    (hrun : Event.runString ∈ (executePythonCode env showErrors).2) :
    (showErrors ≠ 0 →
      Event.printErrors ∈ (executePythonCode env showErrors).2 ∧
      Event.clearErrors ∉ (executePythonCode env showErrors).2) ∧
    (showErrors = 0 →
      Event.clearErrors ∈ (executePythonCode env showErrors).2 ∧
      Event.printErrors ∉ (executePythonCode env showErrors).2) := by
  cases hb : env.builtinsLookup with
  | none =>
      by_cases hs : env.setBuiltinsStatus ≠ 0
      · simp [executePythonCode, hb, hs] at hrun
      · by_cases hf : showErrors ≠ 0 <;>
          simp [executePythonCode, runPhase, hb, hs, hf]
  | some b =>
      by_cases hf : showErrors ≠ 0 <;>
        simp [executePythonCode, runPhase, hb, hf]

theorem executePythonCode_exactly_one_error_op_witness :
    Event.runString ∈ (executePythonCode ⟨some (.ref 0), 0, none⟩ 1).2 ∧
    Event.printErrors ∈ (executePythonCode ⟨some (.ref 0), 0, none⟩ 1).2 ∧
    Event.clearErrors ∉ (executePythonCode ⟨some (.ref 0), 0, none⟩ 1).2 :=
  ⟨by decide,
   (executePythonCode_exactly_one_error_op ⟨some (.ref 0), 0, none⟩ 1 (by decide)).1
     (by decide)⟩

/-- C2: for each supported scalar format code (`s`, `l`, `d`), wrapping a
native value and parsing it back with the matching parser yields the
original value with a success status; in particular `wrapLongInt 42`
parsed back through `parseArgsToLongInt` yields 42 with status 1. -/
theorem wrap_parse_roundtrip (s : String) (n : Int) (d : UInt64) :
    parseArgsToString (wrapString s) = (some s, 1) ∧
    parseArgsToLongInt (wrapLongInt n) = (some n, 1) ∧
    parseArgsToDouble (wrapDouble d) = (some d, 1) ∧
    parseArgsToLongInt (wrapLongInt 42) = (some 42, 1) :=
  ⟨rfl, rfl, rfl, rfl⟩

/-- C3: calling `initialisePythonLibrary` twice with the same handle
leaves the whole state — in particular every function-pointer slot —
identical to the state after the first call. -/
theorem initialisePythonLibrary_idempotent (dlsym : String → Option Nat) (s : PyLib) :
    initialisePythonLibrary dlsym (initialisePythonLibrary dlsym s) =
      initialisePythonLibrary dlsym s ∧
    slots (initialisePythonLibrary dlsym (initialisePythonLibrary dlsym s)) =
      slots (initialisePythonLibrary dlsym s) :=
  ⟨rfl, rfl⟩

/-- C4: initialising from a handle in which exactly one entry-point name
fails to resolve leaves exactly the slot resolved from that name nil and
every other slot resolved. -/
theorem initialise_missing_symbol_frame (dlsym : String → Option Nat) (m : String)
    (s : PyLib) (hm : dlsym m = none)
    (hothers : ∀ n ∈ pythonSymbolNames, n ≠ m → dlsym n ≠ none) :
    ∀ p ∈ slots (initialisePythonLibrary dlsym s), (p.2 = none ↔ p.1 = m) := by
  have key : ∀ n, n ∈ pythonSymbolNames → (dlsym n = none ↔ n = m) := by
    intro n hn
    constructor
    · intro he
      by_contra hne
      exact hothers n hn hne he
    · intro he
      rw [he]
      exact hm
  intro p hp
  simp only [slots, initialisePythonLibrary] at hp
  fin_cases hp <;> exact key _ (by decide)

theorem initialise_missing_symbol_frame_witness :
    ((initialisePythonLibrary dlsymMissingRunString pyLib0).py_runString = none ↔
      ("PyRun_String" : String) = "PyRun_String") ∧
    ((initialisePythonLibrary dlsymMissingRunString pyLib0).pyarg_parsetuple = none ↔
      ("PyArg_ParseTuple" : String) = "PyRun_String") :=
  ⟨initialise_missing_symbol_frame dlsymMissingRunString "PyRun_String" pyLib0
      (by decide) (by decide)
      ("PyRun_String", (initialisePythonLibrary dlsymMissingRunString pyLib0).py_runString)
      (by decide),
   initialise_missing_symbol_frame dlsymMissingRunString "PyRun_String" pyLib0
      (by decide) (by decide)
      ("PyArg_ParseTuple", (initialisePythonLibrary dlsymMissingRunString pyLib0).pyarg_parsetuple)
      (by decide)⟩

/-- C5: when the `PyUnicode_FromString` slot is nil,
`getPyUnicode_FromString` reports the diagnostic message and terminates
the process with exit code 1; when it is resolved, it returns exactly the
result of invoking the entry point on the input. -/
theorem getPyUnicode_FromString_spec (slot : Option (String → PyObject)) (u : String) :
    (slot = none →
      getPyUnicode_FromString slot u =
        CallResult.fatalExit "Lambda functions not available on Python 2!\n" 1) ∧
    (∀ f, slot = some f → getPyUnicode_FromString slot u = CallResult.ok (f u)) := by
  constructor
  · intro h
    rw [h]
    rfl
  · intro f h
    rw [h]
    rfl

theorem getPyUnicode_FromString_spec_witness :
    getPyUnicode_FromString none "abc" =
      CallResult.fatalExit "Lambda functions not available on Python 2!\n" 1 ∧
    getPyUnicode_FromString (some PyObject.str) "abc" = CallResult.ok (.str "abc") :=
  ⟨(getPyUnicode_FromString_spec none "abc").1 rfl,
   (getPyUnicode_FromString_spec (some PyObject.str) "abc").2 PyObject.str rfl⟩

/-- C6: `parseArgsToObjectPair` on a two-reference bundle yields the two
references in order (first as return value, second through the `objectB`
slot) with the success status; on a bundle of any other shape it stores a
failure status and leaves the output slots unset; in every case the
status of the underlying parse call is propagated verbatim into
`*error`. -/
theorem parseArgsToObjectPair_spec (a b args : PyObject)
    (h : ∀ x y, args ≠ PyObject.tuple [x, y]) :
    parseArgsToObjectPair (PyObject.tuple [a, b]) = (some a, some b, 1) ∧
    (parseArgsToObjectPair args).2.2 = 0 ∧
    (∀ t, (parseArgsToObjectPair t).2.2 = (pyarg_parsetuple_OO t).2) := by
  refine ⟨rfl, ?_, ?_⟩
  · rcases args with s | n | d | items | i | i | i
    case tuple =>
      rcases items with _ | ⟨x, _ | ⟨y, _ | ⟨z, rest⟩⟩⟩
      · rfl
      · rfl
      · exact absurd rfl (h x y)
      · rfl
    all_goals rfl
  · intro t
    rcases hq : pyarg_parsetuple_OO t with ⟨_ | ⟨x, y⟩, r⟩ <;>
      simp [parseArgsToObjectPair, hq]

theorem parseArgsToObjectPair_spec_witness :
    parseArgsToObjectPair (PyObject.tuple [.ref 0, .ref 1]) =
      (some (PyObject.ref 0), some (PyObject.ref 1), 1) ∧
    (parseArgsToObjectPair (PyObject.ref 5)).2.2 = 0 :=
  ⟨(parseArgsToObjectPair_spec (.ref 0) (.ref 1) (.ref 5) (fun _ _ hc => nomatch hc)).1,
   (parseArgsToObjectPair_spec (.ref 0) (.ref 1) (.ref 5) (fun _ _ hc => nomatch hc)).2.1⟩

/-- C7: `setAttrString` returns true exactly when the underlying
set-attribute entry point returns 0, and whenever it returns true, a
subsequent `getAttrString` on the same object and name returns the value
that was set. -/
theorem setAttrString_getAttrString_spec (st : AttrState) (obj : PyObject)
    (attr : String) (value : PyObject) :
    ((setAttrString st obj attr value).1 = true ↔
      (py_object_setattrstring st obj attr value).1 = 0) ∧
    ((setAttrString st obj attr value).1 = true →
      getAttrString (setAttrString st obj attr value).2 obj attr = some value) := by
  constructor
  · simp [setAttrString]
  · intro h
    cases obj <;>
      simp [setAttrString, py_object_setattrstring, getAttrString,
        py_object_getattrstring, List.lookup] at h ⊢

theorem setAttrString_getAttrString_spec_witness :
    (setAttrString ⟨[]⟩ (PyObject.ref 0) "x" (PyObject.long 5)).1 = true ∧
    getAttrString (setAttrString ⟨[]⟩ (PyObject.ref 0) "x" (PyObject.long 5)).2
      (PyObject.ref 0) "x" = some (PyObject.long 5) :=
  ⟨by decide,
   (setAttrString_getAttrString_spec ⟨[]⟩ (PyObject.ref 0) "x" (PyObject.long 5)).2
     (by decide)⟩

/-- C8: setting a key in the global dictionary and then immediately
getting the same key returns the value that was set, and both operations
re-resolve the `__main__` module (and its dictionary) afresh on their own
call rather than using a cached reference. -/
theorem setItem_getItem_globalDictionary (st : ModState) (key : String) (value : PyObject) :
    (getItemFromGlobalDictionary key (setItemInGlobalDictionary key value st).1).1 =
      some value ∧
    Event.addModule "__main__" ∈ (setItemInGlobalDictionary key value st).2 ∧
    Event.moduleGetDict ∈ (setItemInGlobalDictionary key value st).2 ∧
    Event.addModule "__main__" ∈
      (getItemFromGlobalDictionary key (setItemInGlobalDictionary key value st).1).2.2 ∧
    Event.moduleGetDict ∈
      (getItemFromGlobalDictionary key (setItemInGlobalDictionary key value st).1).2.2 := by
  cases h : st.modules.lookup "__main__" <;>
    simp [setItemInGlobalDictionary, getItemFromGlobalDictionary, py_import_addmodule,
      py_module_getdict, py_setitemstring, py_getitemstring, h, List.lookup]

/-- C9: when the globals namespace lacks a `__builtins__` binding and the
injection of the built-in namespace fails (nonzero set status),
`executePythonCode` returns nil without invoking the run-source entry
point and without invoking either error operation. -/
theorem executePythonCode_builtins_injection_failure (env : ExecEnv) (showErrors : Int)
    (h1 : env.builtinsLookup = none) (h2 : env.setBuiltinsStatus ≠ 0) :
    (executePythonCode env showErrors).1 = none ∧
    Event.runString ∉ (executePythonCode env showErrors).2 ∧
    Event.printErrors ∉ (executePythonCode env showErrors).2 ∧
    Event.clearErrors ∉ (executePythonCode env showErrors).2 := by
  simp [executePythonCode, h1, h2]

theorem executePythonCode_builtins_injection_failure_witness :
    (executePythonCode ⟨none, 1, some (.ref 0)⟩ 1).1 = none ∧
    Event.runString ∉ (executePythonCode ⟨none, 1, some (.ref 0)⟩ 1).2 ∧
    Event.printErrors ∉ (executePythonCode ⟨none, 1, some (.ref 0)⟩ 1).2 ∧
    Event.clearErrors ∉ (executePythonCode ⟨none, 1, some (.ref 0)⟩ 1).2 :=
  executePythonCode_builtins_injection_failure ⟨none, 1, some (.ref 0)⟩ 1 rfl (by decide)

/-- C10: `getModule` ignores its name argument entirely: for any two
names it returns the same result, namely the result of resolving the
module named `__main__`. -/
theorem getModule_ignores_name (a b : String) (st : ModState) :
    getModule a st = getModule b st ∧
    getModule a st = py_import_addmodule "__main__" st :=
  ⟨rfl, rfl⟩
